import Mathlib

/-!
# session-ledis: the value codec and the session attribute store

A shallow embedding of `ledis.go` (package `ledistore`).

* Go values held in an `interface{}` are modelled by their dynamic type and
  an uninterpreted content; a pointer is modelled by the value it points to
  (addresses are not part of the model).
* The three external collaborators of the package are parameters, gathered in
  `Env`: the `encoding/gob` substrate, the `goredis` reply helpers and the
  remote backend reached through the connection pool.
* A Go panic is an explicit outcome (`Outcome.abort`).
-/

namespace Ledistore

/-! ## Go values as `reflect` sees them -/

/-- The constants of `reflect.Kind`. -/
inductive Kind where
  | Invalid | Bool | Int | Int8 | Int16 | Int32 | Int64
  | Uint | Uint8 | Uint16 | Uint32 | Uint64 | Uintptr
  | Float32 | Float64 | Complex64 | Complex128
  | Array | Chan | Func | Interface | Map | Ptr | Slice | String | Struct
  | UnsafePointer
  deriving DecidableEq, Repr

/-- The kinds a value that is not a pointer can have when it sits in an
`interface{}`: every kind of `reflect.Kind` but `Invalid`, `Interface` and
`Ptr`. -/
inductive DataKind where
  | Bool | Int | Int8 | Int16 | Int32 | Int64
  | Uint | Uint8 | Uint16 | Uint32 | Uint64 | Uintptr
  | Float32 | Float64 | Complex64 | Complex128
  | Array | Chan | Func | Map | Slice | String | Struct
  | UnsafePointer
  deriving DecidableEq, Repr

/-- The `reflect.Kind` of a non-pointer kind. -/
def DataKind.toKind : DataKind → Kind
  | .Bool => .Bool | .Int => .Int | .Int8 => .Int8 | .Int16 => .Int16
  | .Int32 => .Int32 | .Int64 => .Int64
  | .Uint => .Uint | .Uint8 => .Uint8 | .Uint16 => .Uint16
  | .Uint32 => .Uint32 | .Uint64 => .Uint64 | .Uintptr => .Uintptr
  | .Float32 => .Float32 | .Float64 => .Float64
  | .Complex64 => .Complex64 | .Complex128 => .Complex128
  | .Array => .Array | .Chan => .Chan | .Func => .Func | .Map => .Map
  | .Slice => .Slice | .String => .String | .Struct => .Struct
  | .UnsafePointer => .UnsafePointer

/-- A byte slice, `[]byte`; each element stands for one byte. -/
abbrev Bytes := List Nat

/-- A Go `error` that is not nil, by its message. -/
abbrev Err := String

/-- A Go type as `reflect.Type` shows it: a non-pointer type with its kind and
its printed name, or a pointer type with its element type. -/
inductive GoType where
  | base (kind : DataKind) (name : String)
  | ptr (elem : GoType)
  deriving DecidableEq, Repr

/-- The method `Kind` of `reflect.Type`. -/
def GoType.Kind : GoType → Kind
  | .base k _ => k.toKind
  | .ptr _ => Kind.Ptr

/-- The printed form of a type, what the verb `%v` shows. -/
def GoType.String : GoType → String
  | .base _ n => n
  | .ptr e => "*" ++ e.String

/-- A non-pointer value: its kind, the name of its type, its content as an
encoder of another package sees it (the exported fields of a struct, the
whole value of anything else) and the content of its unexported struct fields
(empty when it has none, or when they all hold their zero value). -/
structure Datum where
  kind : DataKind
  name : String
  content : Bytes
  unexported : Bytes
  deriving DecidableEq, Repr

/-- A dynamic value held in a non-nil `interface{}`. -/
inductive Value where
  | data (d : Datum)
  | nilPtr (elem : GoType)
  | ptr (target : Value)
  deriving DecidableEq, Repr

/-- The result of `reflect.TypeOf` on a non-nil interface. -/
def Value.Type : Value → GoType
  | .data d => GoType.base d.kind d.name
  | .nilPtr e => GoType.ptr e
  | .ptr t => GoType.ptr t.Type

/-- The kind of a value: `reflect.TypeOf(value).Kind()`. -/
def Value.Kind (v : Value) : Kind := v.Type.Kind

/-- The value a pointer points to, `reflect.ValueOf(value).Elem()`: nothing
for a nil pointer (the zero `reflect.Value`). -/
def Value.Elem : Value → Option Value
  | .ptr t => some t
  | _ => none

/-- An `interface{}`: nil, or a dynamic value. -/
abbrev Iface := Option Value

/-- How a Go call ends: it returns a result with a nil error, it returns a
non-nil error, or it panics. -/
inductive Outcome (α : Type) where
  | ok (a : α)
  | err (e : Err)
  | abort
  deriving DecidableEq, Repr

/-! ## The backend protocol -/

/-- An argument handed to `Do`. -/
inductive Arg where
  | id (i : String)
  | str (s : String)
  | bytes (b : Bytes)
  | duration (d : Int)
  | int (n : Int)
  deriving DecidableEq, Repr

/-- One call of `Do`: the command name and its arguments. -/
structure Cmd where
  name : String
  args : List Arg
  deriving DecidableEq, Repr

/-- A reply of the backend, the `interface{}` that `conn.Do` returns. -/
inductive Reply where
  | null
  | int (n : Int)
  | bulk (b : Bytes)
  | status (s : String)
  | error (msg : String)
  deriving DecidableEq, Repr

/-- The external collaborators of the package. `σ` is the state of the remote
backend, `ρ` the state of gob's process-wide type registry.

* `exec` is one round trip: `s.client.Get()`, `conn.Do(cmd, args...)` and
  `conn.Close()`; it returns the pair `(reply, error)`.
* `gobRegister` is `gob.Register`; it returns nothing when `gob.Register`
  panics.
* `gobEncode` is `gob.NewEncoder(&b).Encode(&value)` followed by `b.Bytes()`.
* `gobDecode` is `gob.NewDecoder(b).Decode(&p)`; it returns the interface `p`.
* `redisBytes` and `redisInt` are `goredis.Bytes` and `goredis.Int`. -/
structure Env (σ ρ : Type) where
  exec : σ → Cmd → (Reply × Option Err) × σ
  gobRegister : ρ → Value → Option ρ
  gobEncode : ρ → Value → Except Err Bytes
  gobDecode : ρ → Bytes → Except Err Iface
  redisBytes : Reply → Option Err → Bytes × Option Err
  redisInt : Reply → Option Err → Int × Option Err

/-! ## The value codec -/

/-- The method `registerGobConcreteType`. -/
def registerGobConcreteType {σ ρ : Type} (env : Env σ ρ) (reg : ρ)
    (value : Iface) : Outcome Unit × ρ :=
  match value with
  | none => (.abort, reg)
  | some v =>
    match v.Kind with
    | .Ptr =>
      match v.Elem with
      | none => (.abort, reg)
      | some i =>
        match env.gobRegister reg i with
        | none => (.abort, reg)
        | some reg1 => (.ok (), reg1)
    | .Struct | .Map | .Slice =>
      match env.gobRegister reg v with
      | none => (.abort, reg)
      | some reg1 => (.ok (), reg1)
    | .String | .Int | .Int8 | .Int16 | .Int32 | .Int64
    | .Uint | .Uint8 | .Uint16 | .Uint32 | .Uint64
    | .Bool | .Float32 | .Float64 | .Complex64 | .Complex128 =>
      (.ok (), reg)
    | _ => (.err ("unhandled type: " ++ v.Type.String), reg)

/-- The method `serialize`. -/
def serialize {σ ρ : Type} (env : Env σ ρ) (reg : ρ) (value : Iface) :
    Outcome Bytes × ρ :=
  match registerGobConcreteType env reg value with
  | (.err e, reg1) => (.err e, reg1)
  | (.abort, reg1) => (.abort, reg1)
  | (.ok _, reg1) =>
    match value with
    | none => (.abort, reg1)
    | some v =>
      if v.Kind = Kind.Struct then
        (.err "serialize func only take pointer of a struct", reg1)
      else
        match env.gobEncode reg1 v with
        | .error e => (.err e, reg1)
        | .ok b => (.ok b, reg1)

/-- The method `deserialize`. The pointer `reflect.NewAt(v.Type(), ...)`
builds on the decoded struct is the pointer to that struct. -/
def deserialize {σ ρ : Type} (env : Env σ ρ) (reg : ρ) (byt : Bytes) :
    Except Err Iface :=
  match env.gobDecode reg byt with
  | .error e => .error e
  | .ok none => .ok none
  | .ok (some p) =>
    if p.Kind = Kind.Struct then .ok (some (Value.ptr p)) else .ok (some p)

/-! ## The session attribute store -/

/-- The store `LedisStore` together with what its calls act on. -/
structure Store (σ ρ : Type) where
  MaxAge : Int
  backend : σ
  registry : ρ
  issued : List Cmd
  logged : List String

/-- The method `Do`: one command, one round trip. Every call is recorded in
`issued`, oldest first. -/
def Do {σ ρ : Type} (env : Env σ ρ) (s : Store σ ρ) (cmd : String)
    (args : List Arg) : (Reply × Option Err) × Store σ ρ :=
  let r := env.exec s.backend ⟨cmd, args⟩
  (r.1, { s with backend := r.2, issued := s.issued ++ [⟨cmd, args⟩] })

/-- The call `s.Logger.Errorf(format, err)`. -/
def Errorf {σ ρ : Type} (s : Store σ ρ) (line : String) : Store σ ρ :=
  { s with logged := s.logged ++ [line] }

/-- The method `Set`. -/
def Set {σ ρ : Type} (env : Env σ ρ) (s : Store σ ρ) (id key : String)
    (val : Iface) : Outcome Unit × Store σ ρ :=
  match serialize env s.registry val with
  | (.abort, reg1) => (.abort, { s with registry := reg1 })
  | (.err e, reg1) => (.err e, { s with registry := reg1 })
  | (.ok bs, reg1) =>
    match Do env { s with registry := reg1 } "HSET"
        [Arg.id id, Arg.str key, Arg.bytes bs] with
    | ((_, some e), s1) => (.err e, s1)
    | ((_, none), s1) =>
      match Do env s1 "HEXPIRE" [Arg.id id, Arg.duration s1.MaxAge] with
      | ((_, some e), s2) => (.err e, s2)
      | ((_, none), s2) => (.ok (), s2)

/-- The method `Get`. -/
def Get {σ ρ : Type} (env : Env σ ρ) (s : Store σ ρ) (id key : String) :
    Iface × Store σ ρ :=
  match Do env s "HGET" [Arg.id id, Arg.str key] with
  | ((_, some e), s1) => (none, Errorf s1 ("ledis HGET failed: " ++ e))
  | ((val, none), s1) =>
    let s2 := (Do env s1 "HEXPIRE" [Arg.id id, Arg.duration s1.MaxAge]).2
    match env.redisBytes val none with
    | (_, some e) => (none, Errorf s2 ("redis.Bytes failed: " ++ e))
    | (item, none) =>
      match deserialize env s2.registry item with
      | .error e => (none, Errorf s2 ("ledis HGET failed: " ++ e))
      | .ok value => (value, s2)

/-- The method `Del`. -/
def Del {σ ρ : Type} (env : Env σ ρ) (s : Store σ ρ) (id key : String) :
    Bool × Store σ ρ :=
  let r := Do env s "HDEL" [Arg.id id, Arg.str key]
  (r.1.2.isNone, r.2)

/-- The method `Clear`. -/
def Clear {σ ρ : Type} (env : Env σ ρ) (s : Store σ ρ) (id : String) :
    Bool × Store σ ρ :=
  let r := Do env s "HCLEAR" [Arg.id id]
  (r.1.2.isNone, r.2)

/-- The method `Add`. -/
def Add {σ ρ : Type} (s : Store σ ρ) (_id : String) : Bool × Store σ ρ :=
  (true, s)

/-- The method `Exist`. -/
def Exist {σ ρ : Type} (env : Env σ ρ) (s : Store σ ρ) (id : String) :
    Bool × Store σ ρ :=
  let r := Do env s "HLEN" [Arg.id id]
  let v := (env.redisInt r.1.1 r.1.2).1
  (decide (v > 0), r.2)

/-- The method `SetMaxAge`. -/
def SetMaxAge {σ ρ : Type} (s : Store σ ρ) (maxAge : Int) : Store σ ρ :=
  { s with MaxAge := maxAge }

/-- The method `SetIdMaxAge`. -/
def SetIdMaxAge {σ ρ : Type} (env : Env σ ρ) (s : Store σ ρ) (id : String)
    (_maxAge : Int) : Store σ ρ :=
  match Exist env s id with
  | (true, s1) => (Do env s1 "HEXPIRE" [Arg.id id, Arg.duration s1.MaxAge]).2
  | (false, s1) => s1

/-! ## The commands the store issues -/

/-- The command `HGET id key`. -/
def hget (id key : String) : Cmd := ⟨"HGET", [Arg.id id, Arg.str key]⟩

/-- The command `HEXPIRE id d`. -/
def hexpire (id : String) (d : Int) : Cmd :=
  ⟨"HEXPIRE", [Arg.id id, Arg.duration d]⟩

/-- The command `HSET id key bs`. -/
def hset (id key : String) (bs : Bytes) : Cmd :=
  ⟨"HSET", [Arg.id id, Arg.str key, Arg.bytes bs]⟩

/-- The command `HLEN id`. -/
def hlen (id : String) : Cmd := ⟨"HLEN", [Arg.id id]⟩

/-! ## The contracts of the collaborators -/

/-- What gob transmits of a value held in an interface: the value with its
pointers followed; nothing when a nil pointer is met. -/
def indirect : Value → Option Datum
  | .data d => some d
  | .nilPtr _ => none
  | .ptr t => indirect t

/-- The contract of gob this package relies on. Gob sends a value held in an
interface under the name of its type, with pointers flattened: the bytes it
produces from a non-pointer value, or from a pointer to one, decode in the
same registry to a non-pointer value of that same type. Nothing is assumed of
the content that comes back: gob transmits the exported fields of a struct
only, and omits zero values. -/
def GobKeepsType {σ ρ : Type} (env : Env σ ρ) : Prop :=
  ∀ (reg : ρ) (d : Datum) (b : Bytes),
    (env.gobEncode reg (Value.data d) = .ok b ∨
      env.gobEncode reg (Value.ptr (Value.data d)) = .ok b) →
    ∃ p : Datum, env.gobDecode reg b = .ok (some (Value.data p)) ∧
      p.kind = d.kind ∧ p.name = d.name

/-- The contract of `goredis.Int` that `Exist` relies on: when `Do` returned
an error the conversion fails, and a failed conversion yields zero. -/
def IntContract {σ ρ : Type} (env : Env σ ρ) : Prop :=
  (∀ (r : Reply) (e : Err), (env.redisInt r (some e)).2 ≠ none) ∧
  (∀ (r : Reply) (e : Option Err),
    (env.redisInt r e).2 ≠ none → (env.redisInt r e).1 = 0)

/-! ## The shapes of values the specification names -/

/-- The scalar kinds the specification lists as supported: string, bool and
every integer and float width. -/
def scalarKinds : List DataKind :=
  [.String, .Bool, .Int, .Int8, .Int16, .Int32, .Int64,
   .Uint, .Uint8, .Uint16, .Uint32, .Uint64, .Float32, .Float64]

/-- The built-in scalars of the registry: the supported scalars and the two
complex widths. -/
def builtinKinds : List DataKind :=
  scalarKinds ++ [.Complex64, .Complex128]

/-- The supported values of the round trip: a scalar, a map, a slice, or a
pointer to a struct. -/
def Supported : Value → Prop
  | .data d => d.kind ∈ scalarKinds ∨ d.kind = .Map ∨ d.kind = .Slice
  | .ptr (.data d) => d.kind = .Struct
  | _ => False

instance : DecidablePred Supported := fun v =>
  match v with
  | .data _ => by unfold Supported; infer_instance
  | .ptr (.data _) => by unfold Supported; infer_instance
  | .ptr (.ptr _) => by unfold Supported; infer_instance
  | .ptr (.nilPtr _) => by unfold Supported; infer_instance
  | .nilPtr _ => by unfold Supported; infer_instance

/-! ## A reference environment

A small executable instance of `Env`, on which the contracts above hold and
on which the operations can be run. -/

/-- The numeric value of a kind, as `reflect.Kind` numbers it. -/
def DataKind.code : DataKind → Nat
  | .Bool => 1 | .Int => 2 | .Int8 => 3 | .Int16 => 4 | .Int32 => 5
  | .Int64 => 6 | .Uint => 7 | .Uint8 => 8 | .Uint16 => 9 | .Uint32 => 10
  | .Uint64 => 11 | .Uintptr => 12 | .Float32 => 13 | .Float64 => 14
  | .Complex64 => 15 | .Complex128 => 16 | .Array => 17 | .Chan => 18
  | .Func => 19 | .Map => 21 | .Slice => 23 | .String => 24 | .Struct => 25
  | .UnsafePointer => 26

/-- The kind with a given number. -/
def DataKind.ofCode : Nat → Option DataKind
  | 1 => some .Bool | 2 => some .Int | 3 => some .Int8 | 4 => some .Int16
  | 5 => some .Int32 | 6 => some .Int64 | 7 => some .Uint | 8 => some .Uint8
  | 9 => some .Uint16 | 10 => some .Uint32 | 11 => some .Uint64
  | 12 => some .Uintptr | 13 => some .Float32 | 14 => some .Float64
  | 15 => some .Complex64 | 16 => some .Complex128 | 17 => some .Array
  | 18 => some .Chan | 19 => some .Func | 21 => some .Map | 23 => some .Slice
  | 24 => some .String | 25 => some .Struct | 26 => some .UnsafePointer
  | _ => none

/-- The name of the predeclared type of a scalar kind. -/
def basicName : DataKind → Option String
  | .Bool => some "bool" | .Int => some "int" | .Int8 => some "int8"
  | .Int16 => some "int16" | .Int32 => some "int32" | .Int64 => some "int64"
  | .Uint => some "uint" | .Uint8 => some "uint8" | .Uint16 => some "uint16"
  | .Uint32 => some "uint32" | .Uint64 => some "uint64"
  | .Uintptr => some "uintptr"
  | .Float32 => some "float32" | .Float64 => some "float64"
  | .Complex64 => some "complex64" | .Complex128 => some "complex128"
  | .String => some "string"
  | _ => none

/-- The reference registry knows a type when it is predeclared or when its
name was registered. -/
def known (reg : List String) (d : Datum) : Bool :=
  basicName d.kind == some d.name || reg.contains d.name

/-- The reference wire form of a non-pointer value: kind, length of the type
name, the type name, the content. As in gob, the unexported fields of a
struct are not sent. -/
def encodeDatum (d : Datum) : Bytes :=
  d.kind.code :: d.name.length :: (d.name.data.map Char.toNat ++ d.content)

/-- The reading of the wire form; the unexported fields of the value it
builds hold their zero value. -/
def decodeDatum : Bytes → Option Datum
  | k :: n :: rest =>
    match DataKind.ofCode k with
    | none => none
    | some kind =>
      if n ≤ rest.length then
        some ⟨kind, String.mk ((rest.take n).map Char.ofNat), rest.drop n, []⟩
      else none
  | _ => none

/-- The reference `gob.Register`: records the printed name of the type. -/
def refRegister (reg : List String) (v : Value) : Option (List String) :=
  some (v.Type.String :: reg)

/-- The reference encoder: follows pointers, refuses a nil pointer and a type
the registry does not know. -/
def refEncode (reg : List String) (v : Value) : Except Err Bytes :=
  match indirect v with
  | none => .error "gob: cannot encode nil pointer inside interface"
  | some d =>
    if known reg d then .ok (encodeDatum d)
    else .error ("gob: type not registered for interface: " ++ d.name)

/-- The reference decoder: the single byte 0 is the nil interface. -/
def refDecode (reg : List String) (b : Bytes) : Except Err Iface :=
  if b = [0] then .ok none
  else
    match decodeDatum b with
    | none => .error "unexpected EOF"
    | some d =>
      if known reg d then .ok (some (Value.data d))
      else .error ("gob: name not registered for interface: " ++ d.name)

/-- Decimal digits of a reply, most significant first. -/
def parseDigits : Bytes → Option Nat
  | [] => none
  | ds => ds.foldl
      (fun acc c =>
        match acc with
        | none => none
        | some n => if 48 ≤ c ∧ c ≤ 57 then some (10 * n + (c - 48)) else none)
      (some 0)

/-- The reference `goredis.Bytes`: the bytes of a bulk or status reply, an
error for anything else. -/
def goredisBytes : Reply → Option Err → Bytes × Option Err
  | _, some e => ([], some e)
  | .bulk b, none => (b, none)
  | .status s, none => (s.toUTF8.toList.map UInt8.toNat, none)
  | .null, none => ([], some "nil returned")
  | .error m, none => ([], some m)
  | .int _, none => ([], some "unexpected type for Bytes, got type int64")

/-- The reference `goredis.Int`: the integer of an integer reply, the parsed
decimal of a bulk reply, zero and an error for anything else. -/
def goredisInt : Reply → Option Err → Int × Option Err
  | _, some e => (0, some e)
  | .int n, none => (n, none)
  | .bulk b, none =>
    match parseDigits b with
    | some n => ((n : Int), none)
    | none => (0, some "strconv.ParseInt: invalid syntax")
  | .null, none => (0, some "nil returned")
  | .error m, none => (0, some m)
  | .status _, none => (0, some "unexpected type for Int, got type string")

/-- A scripted backend: its state is the list of replies still to give; each
command takes the next one, and a backend with nothing left refuses the
connection. -/
def scripted : List (Reply × Option Err) → Cmd →
    (Reply × Option Err) × List (Reply × Option Err)
  | [], _ => ((Reply.null, some "connection refused"), [])
  | r :: rest, _ => (r, rest)

/-- The reference environment. -/
def refEnv : Env (List (Reply × Option Err)) (List String) where
  exec := scripted
  gobRegister := refRegister
  gobEncode := refEncode
  gobDecode := refDecode
  redisBytes := goredisBytes
  redisInt := goredisInt

/-- A store on the reference environment with the given script, a fresh
registry and a sliding window of 30 units. -/
def refStore (script : List (Reply × Option Err)) :
    Store (List (Reply × Option Err)) (List String) :=
  { MaxAge := 30, backend := script, registry := [], issued := [], logged := [] }

/-- A struct value, `Profile{Name: "a"}`. -/
def profile : Value := Value.data ⟨.Struct, "main.Profile", [97], []⟩

/-- A struct value with an unexported field, `Profile{Name: "a", secret: 5}`. -/
def secretProfile : Value := Value.data ⟨.Struct, "main.Profile", [97], [5]⟩

/-- A value of a defined type of scalar kind, `Age(5)` with `type Age int`. -/
def age : Value := Value.data ⟨.Int, "main.Age", [5], []⟩

/-- A map value, of type `map[string]int`. -/
def counts : Value := Value.data ⟨.Map, "map[string]int", [1, 107, 7], []⟩

/-- The integer 42, of type `int`. -/
def fortyTwo : Value := Value.data ⟨.Int, "int", [42], []⟩

/-! ## Lemmas on the reference environment -/

theorem ofCode_code (k : DataKind) : DataKind.ofCode k.code = some k := by
  cases k <;> rfl

theorem decodeDatum_encodeDatum (d : Datum) :
    decodeDatum (encodeDatum d) = some ⟨d.kind, d.name, d.content, []⟩ := by
  obtain ⟨k, ⟨cs⟩, c, u⟩ := d
  have hlen : (List.map Char.toNat cs).length = cs.length :=
    List.length_map cs Char.toNat
  have hmap : List.map Char.ofNat (List.map Char.toNat cs) = cs := by
    rw [List.map_map]
    conv_rhs => rw [← List.map_id cs]
    apply List.map_congr_left
    intro a _
    exact Char.ofNat_toNat a
  have hle : cs.length ≤ (List.map Char.toNat cs ++ c).length := by
    rw [List.length_append, hlen]
    exact Nat.le_add_right _ _
  show decodeDatum (k.code :: cs.length :: (List.map Char.toNat cs ++ c)) = _
  unfold decodeDatum
  simp only [ofCode_code]
  rw [if_pos hle]
  have ht : List.take cs.length (List.map Char.toNat cs ++ c)
      = List.map Char.toNat cs := by
    rw [← hlen]; exact List.take_left _ _
  have hd : List.drop cs.length (List.map Char.toNat cs ++ c) = c := by
    rw [← hlen]; exact List.drop_left _ _
  rw [ht, hd, hmap]

theorem encodeDatum_ne_nil_interface (d : Datum) : encodeDatum d ≠ [0] := by
  obtain ⟨k, n, c, u⟩ := d
  simp [encodeDatum]

theorem refEnv_keepsType : GobKeepsType refEnv := by
  intro reg d b h
  have henc : refEncode reg (Value.data d) = .ok b := by
    rcases h with h | h
    · exact h
    · simpa [refEnv, refEncode, indirect] using h
  simp only [refEncode, indirect] at henc
  by_cases hk : known reg d = true
  · rw [if_pos hk] at henc
    injection henc with hb
    subst hb
    have hk1 : known reg ⟨d.kind, d.name, d.content, []⟩ = true := hk
    refine ⟨⟨d.kind, d.name, d.content, []⟩, ?_, rfl, rfl⟩
    show refDecode reg (encodeDatum d) = _
    unfold refDecode
    rw [if_neg (encodeDatum_ne_nil_interface d), decodeDatum_encodeDatum]
    dsimp only
    rw [if_pos hk1]
  · rw [if_neg hk] at henc
    cases henc

theorem refEnv_intContract : IntContract refEnv := by
  constructor
  · intro r e
    cases r <;> exact fun h => Option.noConfusion h
  · intro r e h
    cases e with
    | some e => cases r <;> rfl
    | none =>
      cases r with
      | int n => exact absurd rfl h
      | bulk b =>
        have hb : goredisInt (Reply.bulk b) none =
            (match parseDigits b with
              | some n => ((n : Int), none)
              | none => (0, some "strconv.ParseInt: invalid syntax")) := rfl
        change (goredisInt (Reply.bulk b) none).2 ≠ none at h
        show (goredisInt (Reply.bulk b) none).1 = 0
        rw [hb] at h ⊢
        cases hp : parseDigits b with
        | none => rfl
        | some n => rw [hp] at h; exact absurd rfl h
      | null => rfl
      | status s => rfl
      | error m => rfl

/-! ## Lemmas on the codec -/

theorem register_ptr {σ ρ : Type} (env : Env σ ρ) (reg : ρ) (t : Value) :
    registerGobConcreteType env reg (some (Value.ptr t)) =
      match env.gobRegister reg t with
      | none => (.abort, reg)
      | some reg1 => (.ok (), reg1) := rfl

theorem register_aggregate {σ ρ : Type} (env : Env σ ρ) (reg : ρ) (v : Value)
    (hk : v.Kind = Kind.Struct ∨ v.Kind = Kind.Map ∨ v.Kind = Kind.Slice) :
    registerGobConcreteType env reg (some v) =
      match env.gobRegister reg v with
      | none => (.abort, reg)
      | some reg1 => (.ok (), reg1) := by
  unfold registerGobConcreteType
  rcases hk with hk | hk | hk <;> simp only [hk]

theorem register_builtin {σ ρ : Type} (env : Env σ ρ) (reg : ρ) (d : Datum)
    (hk : d.kind ∈ builtinKinds) :
    registerGobConcreteType env reg (some (Value.data d)) = (.ok (), reg) := by
  obtain ⟨k, n, c, u⟩ := d
  have hk1 : k ∈ builtinKinds := hk
  cases k <;> first | rfl | (exact absurd hk1 (by decide))

theorem serialize_ok_inv {σ ρ : Type} (env : Env σ ρ) (reg reg1 : ρ)
    (v : Value) (b : Bytes) (h : serialize env reg (some v) = (.ok b, reg1)) :
    registerGobConcreteType env reg (some v) = (.ok (), reg1) ∧
      v.Kind ≠ Kind.Struct ∧ env.gobEncode reg1 v = .ok b := by
  unfold serialize at h
  split at h
  · cases h
  · cases h
  · rename_i u r hreg
    dsimp only at h
    by_cases hk : v.Kind = Kind.Struct
    · rw [if_pos hk] at h
      cases h
    · rw [if_neg hk] at h
      split at h
      · cases h
      · rename_i b1 henc
        cases h
        exact ⟨hreg, hk, henc⟩

/-- A defined type of scalar kind takes the case that registers nothing, and
gob then refuses it: `Set(id, "age", Age(5))` fails in `serialize`. -/
theorem named_scalar_not_registered :
    registerGobConcreteType refEnv [] (some age) = (.ok (), []) ∧
    serialize refEnv [] (some age) =
      (.err "gob: type not registered for interface: main.Age", []) :=
  ⟨rfl, rfl⟩

/-! ## The claims -/

/-- C1, as stated, fails on a struct with an unexported field. The pointer
`&Profile{Name: "a", secret: 5}` is a supported value, `serialize` succeeds on
it, and `deserialize` succeeds on the bytes, but it returns
`&Profile{Name: "a"}`: gob sent the exported field only, and the result is
not equal to the value in content. -/
theorem C1_unexported_field_lost :
    Supported (Value.ptr secretProfile) ∧
    serialize refEnv [] (some (Value.ptr secretProfile)) =
      (.ok (encodeDatum ⟨.Struct, "main.Profile", [97], [5]⟩),
        ["main.Profile"]) ∧
    deserialize refEnv ["main.Profile"]
        (encodeDatum ⟨.Struct, "main.Profile", [97], [5]⟩) =
      .ok (some (Value.ptr profile)) ∧
    Value.ptr profile ≠ Value.ptr secretProfile := by
  refine ⟨by decide, rfl, rfl, by decide⟩

/-- C1, amended. On a gob substrate that sends a value under the name of its
type with pointers flattened, for every supported value `V` (a string, a
bool, an integer or a float of any width, a map, a slice, a pointer to a
struct) for which `serialize` succeeds with bytes `b`: gob decodes `b` to a
non-pointer value `p` of the type of the value `d` that `V` holds,
`deserialize` succeeds on `b`, and its result `r` has the same concrete type
as `V` (a pointer to a struct comes back as a pointer to that struct type) and
holds `p`. The result is equal to `V` exactly when gob returned the content
unchanged, `p = d`. -/
theorem C1_round_trip_keeps_type {σ ρ : Type} (env : Env σ ρ)
    (hgob : GobKeepsType env) (reg reg1 : ρ) (V : Value) (b : Bytes)
    (hV : Supported V) (henc : serialize env reg (some V) = (.ok b, reg1)) :
    ∃ d p : Datum, indirect V = some d ∧
      env.gobDecode reg1 b = .ok (some (Value.data p)) ∧
      p.kind = d.kind ∧ p.name = d.name ∧
      ∃ r : Value, deserialize env reg1 b = .ok (some r) ∧
        r.Type = V.Type ∧ indirect r = some p ∧ (r = V ↔ p = d) := by
  obtain ⟨_, hk, hb⟩ := serialize_ok_inv env reg reg1 V b henc
  match V, hV with
  | .data d, _ =>
    obtain ⟨p, hdec, hpk, hpn⟩ := hgob reg1 d b (Or.inl hb)
    have hs : (Value.data p).Kind ≠ Kind.Struct := by
      intro h
      apply hk
      show d.kind.toKind = Kind.Struct
      rw [← hpk]
      exact h
    refine ⟨d, p, rfl, hdec, hpk, hpn, Value.data p, ?_, ?_, rfl, ?_⟩
    · unfold deserialize
      rw [hdec]
      exact if_neg hs
    · show GoType.base p.kind p.name = GoType.base d.kind d.name
      rw [hpk, hpn]
    · constructor
      · intro h
        injection h
      · intro h
        rw [h]
  | .ptr (.data d), hV =>
    obtain ⟨p, hdec, hpk, hpn⟩ := hgob reg1 d b (Or.inr hb)
    have hs : (Value.data p).Kind = Kind.Struct := by
      have hd : d.kind = DataKind.Struct := hV
      show p.kind.toKind = Kind.Struct
      rw [hpk, hd]
      rfl
    refine ⟨d, p, rfl, hdec, hpk, hpn, Value.ptr (Value.data p), ?_, ?_, rfl,
      ?_⟩
    · unfold deserialize
      rw [hdec]
      exact if_pos hs
    · show GoType.ptr (GoType.base p.kind p.name) =
        GoType.ptr (GoType.base d.kind d.name)
      rw [hpk, hpn]
    · constructor
      · intro h
        injection h with h1
        injection h1
      · intro h
        rw [h]

/-- Witness of C1 (amended) on the reference environment, at the pointer
`&Profile{Name: "a", secret: 5}`. -/
theorem C1_round_trip_keeps_type_witness :
    ∃ d p : Datum, indirect (Value.ptr secretProfile) = some d ∧
      refEnv.gobDecode ["main.Profile"]
          (encodeDatum ⟨.Struct, "main.Profile", [97], [5]⟩) =
        .ok (some (Value.data p)) ∧
      p.kind = d.kind ∧ p.name = d.name ∧
      ∃ r : Value,
        deserialize refEnv ["main.Profile"]
            (encodeDatum ⟨.Struct, "main.Profile", [97], [5]⟩) =
          .ok (some r) ∧
        r.Type = (Value.ptr secretProfile).Type ∧ indirect r = some p ∧
        (r = Value.ptr secretProfile ↔ p = d) :=
  C1_round_trip_keeps_type refEnv refEnv_keepsType [] ["main.Profile"]
    (Value.ptr secretProfile)
    (encodeDatum ⟨.Struct, "main.Profile", [97], [5]⟩) (by decide) (by rfl)

/-- C2, as stated, fails on a map: gob decodes these bytes to a value of kind
`Map`, an aggregate, and `deserialize` succeeds on them, yet its result is not
a pointer to the decoded value. -/
theorem C2_map_not_wrapped :
    ¬ (∀ p r : Value,
        refEnv.gobDecode ["map[string]int"]
            (encodeDatum ⟨.Map, "map[string]int", [1, 107, 7], []⟩) =
          .ok (some p) →
        deserialize refEnv ["map[string]int"]
            (encodeDatum ⟨.Map, "map[string]int", [1, 107, 7], []⟩) =
          .ok (some r) →
        (p.Kind = Kind.Struct ∨ p.Kind = Kind.Map ∨ p.Kind = Kind.Slice) →
        r = Value.ptr p) := by
  intro h
  have hr := h counts counts (by rfl) (by rfl) (Or.inr (Or.inl (by rfl)))
  exact absurd hr (by decide)

/-- C2, amended. For every byte sequence on which `deserialize` succeeds with
a non-nil result `r`, gob decoded a value `p`, and: if the kind of `p` is
struct, `r` is the pointer to `p` (its kind is `Ptr` and it points to the
decoded data); if the kind of `p` is anything else (a scalar, and also a map
or a slice), `r` is `p` itself, by value. -/
theorem C2_decoded_shape {σ ρ : Type} (env : Env σ ρ) (reg : ρ) (byt : Bytes)
    (r : Value) (h : deserialize env reg byt = .ok (some r)) :
    ∃ p : Value, env.gobDecode reg byt = .ok (some p) ∧
      (p.Kind = Kind.Struct →
        r = Value.ptr p ∧ r.Kind = Kind.Ptr ∧ r.Elem = some p) ∧
      (p.Kind ≠ Kind.Struct → r = p) := by
  unfold deserialize at h
  split at h
  · cases h
  · cases h
  · rename_i p hdec
    refine ⟨p, hdec, ?_, ?_⟩
    · intro hk
      rw [if_pos hk] at h
      cases h
      exact ⟨rfl, rfl, rfl⟩
    · intro hk
      rw [if_neg hk] at h
      cases h
      rfl

/-- Witness of C2 (amended) on the reference environment, at the bytes of a
`Profile` struct. -/
theorem C2_decoded_shape_witness :
    ∃ p : Value,
      refEnv.gobDecode ["main.Profile"]
          (encodeDatum ⟨.Struct, "main.Profile", [97], []⟩) = .ok (some p) ∧
      (p.Kind = Kind.Struct →
        Value.ptr profile = Value.ptr p ∧
          (Value.ptr profile).Kind = Kind.Ptr ∧
          (Value.ptr profile).Elem = some p) ∧
      (p.Kind ≠ Kind.Struct → Value.ptr profile = p) :=
  C2_decoded_shape refEnv ["main.Profile"]
    (encodeDatum ⟨.Struct, "main.Profile", [97], []⟩) (Value.ptr profile)
    (by rfl)

/-! ### Lemmas on `Do` and `Get` -/

theorem Do_issued {σ ρ : Type} (env : Env σ ρ) (s : Store σ ρ) (cmd : String)
    (args : List Arg) :
    (Do env s cmd args).2.issued = s.issued ++ [⟨cmd, args⟩] := rfl

theorem Do_registry {σ ρ : Type} (env : Env σ ρ) (s : Store σ ρ)
    (cmd : String) (args : List Arg) :
    (Do env s cmd args).2.registry = s.registry := rfl

theorem Do_MaxAge {σ ρ : Type} (env : Env σ ρ) (s : Store σ ρ) (cmd : String)
    (args : List Arg) :
    (Do env s cmd args).2.MaxAge = s.MaxAge := rfl

theorem Do_reply {σ ρ : Type} (env : Env σ ρ) (s : Store σ ρ) (cmd : String)
    (args : List Arg) :
    (Do env s cmd args).1 = (env.exec s.backend ⟨cmd, args⟩).1 := rfl

theorem Get_of_error {σ ρ : Type} (env : Env σ ρ) (s : Store σ ρ)
    (id key : String) (e : Err)
    (h : (env.exec s.backend (hget id key)).1.2 = some e) :
    Get env s id key =
      (none, Errorf (Do env s "HGET" [Arg.id id, Arg.str key]).2
        ("ledis HGET failed: " ++ e)) := by
  have hd : (Do env s "HGET" [Arg.id id, Arg.str key]).1.2 = some e := h
  unfold Get
  split
  · rename_i x e1 s1 heq
    rw [heq] at hd
    cases hd
    rw [heq]
  · rename_i x val s1 heq
    rw [heq] at hd
    cases hd

theorem Get_of_reply {σ ρ : Type} (env : Env σ ρ) (s : Store σ ρ)
    (id key : String) (h : (env.exec s.backend (hget id key)).1.2 = none) :
    Get env s id key =
      (match env.redisBytes (env.exec s.backend (hget id key)).1.1 none with
        | (_, some e) =>
          (none, Errorf
            (Do env (Do env s "HGET" [Arg.id id, Arg.str key]).2 "HEXPIRE"
              [Arg.id id, Arg.duration s.MaxAge]).2
            ("redis.Bytes failed: " ++ e))
        | (item, none) =>
          match deserialize env s.registry item with
          | .error e =>
            (none, Errorf
              (Do env (Do env s "HGET" [Arg.id id, Arg.str key]).2 "HEXPIRE"
                [Arg.id id, Arg.duration s.MaxAge]).2
              ("ledis HGET failed: " ++ e))
          | .ok value =>
            (value,
              (Do env (Do env s "HGET" [Arg.id id, Arg.str key]).2 "HEXPIRE"
                [Arg.id id, Arg.duration s.MaxAge]).2)) := by
  have hd : (Do env s "HGET" [Arg.id id, Arg.str key]).1.2 = none := h
  have hv : (Do env s "HGET" [Arg.id id, Arg.str key]).1.1 =
      (env.exec s.backend (hget id key)).1.1 := rfl
  unfold Get
  split
  · rename_i x e1 s1 heq
    rw [heq] at hd
    cases hd
  · rename_i x val s1 heq
    rw [heq] at hv
    have hv1 : val = (env.exec s.backend (hget id key)).1.1 := hv
    have hs1 : s1 = (Do env s "HGET" [Arg.id id, Arg.str key]).2 := by
      rw [heq]
    subst hv1
    subst hs1
    rfl

theorem Get_issued_of_reply {σ ρ : Type} (env : Env σ ρ) (s : Store σ ρ)
    (id key : String) (h : (env.exec s.backend (hget id key)).1.2 = none) :
    (Get env s id key).2.issued =
      s.issued ++ [hget id key, hexpire id s.MaxAge] := by
  rw [Get_of_reply env s id key h]
  have hi : (Do env (Do env s "HGET" [Arg.id id, Arg.str key]).2 "HEXPIRE"
      [Arg.id id, Arg.duration s.MaxAge]).2.issued =
      s.issued ++ [hget id key, hexpire id s.MaxAge] := by
    rw [Do_issued, Do_issued, List.append_assoc]
    rfl
  split
  · exact hi
  · split
    · exact hi
    · exact hi

/-- C3, as stated, fails when the backend returns an error to `HGET`: `Get`
then issues `HGET` only, and no `HEXPIRE s1 MaxAge`. -/
theorem C3_no_refresh_after_backend_error :
    (Get refEnv (refStore [(Reply.null, some "connection refused")])
        "s1" "k").2.issued = [hget "s1" "k"] ∧
    hexpire "s1" 30 ∉
      (Get refEnv (refStore [(Reply.null, some "connection refused")])
        "s1" "k").2.issued := by
  constructor
  · rfl
  · decide

/-- C3, amended. For every session id and key: when `HGET` returns without a
backend error (a stored value or a missing field, also when the conversion to
bytes or the decoding fails afterwards), `Get` issues `HGET id key` and then
`HEXPIRE id MaxAge`, and nothing else; when `HGET` returns a backend error,
`Get` issues `HGET id key` alone and no `HEXPIRE`. -/
theorem C3_get_refreshes_ttl {σ ρ : Type} (env : Env σ ρ) (s : Store σ ρ)
    (id key : String) :
    ((env.exec s.backend (hget id key)).1.2 = none →
      (Get env s id key).2.issued =
        s.issued ++ [hget id key, hexpire id s.MaxAge]) ∧
    (∀ e : Err, (env.exec s.backend (hget id key)).1.2 = some e →
      (Get env s id key).2.issued = s.issued ++ [hget id key]) := by
  constructor
  · exact Get_issued_of_reply env s id key
  · intro e h
    rw [Get_of_error env s id key e h]
    rfl

/-- Witness of C3 (amended) on the reference environment: a missing field
(a null reply without error) is followed by the refresh. -/
theorem C3_get_refreshes_ttl_witness :
    (Get refEnv (refStore [(Reply.null, none), (Reply.int 1, none)])
        "s1" "k").2.issued = [hget "s1" "k", hexpire "s1" 30] :=
  (C3_get_refreshes_ttl refEnv
    (refStore [(Reply.null, none), (Reply.int 1, none)]) "s1" "k").1 (by rfl)

/-- C4. `Get` is fail-soft. For every session id and key: if `HGET` returns an
error, or its reply cannot be converted to bytes, or `deserialize` fails on
the bytes, `Get` returns nil (it has no error result and it does not panic);
and whenever `Get` returns a non-nil value, `HGET` returned no error, the
conversion to bytes succeeded, and the value is exactly what `deserialize`
returns on those bytes. -/
theorem C4_get_fail_soft {σ ρ : Type} (env : Env σ ρ) (s : Store σ ρ)
    (id key : String) :
    (∀ e : Err, (env.exec s.backend (hget id key)).1.2 = some e →
      (Get env s id key).1 = none) ∧
    ((env.exec s.backend (hget id key)).1.2 = none →
      ∀ e : Err,
        (env.redisBytes (env.exec s.backend (hget id key)).1.1 none).2 =
          some e →
        (Get env s id key).1 = none) ∧
    ((env.exec s.backend (hget id key)).1.2 = none →
      (env.redisBytes (env.exec s.backend (hget id key)).1.1 none).2 = none →
      ∀ e : Err,
        deserialize env s.registry
          (env.redisBytes (env.exec s.backend (hget id key)).1.1 none).1 =
            .error e →
        (Get env s id key).1 = none) ∧
    (∀ v : Value, (Get env s id key).1 = some v →
      (env.exec s.backend (hget id key)).1.2 = none ∧
      (env.redisBytes (env.exec s.backend (hget id key)).1.1 none).2 = none ∧
      deserialize env s.registry
        (env.redisBytes (env.exec s.backend (hget id key)).1.1 none).1 =
          .ok (some v)) := by
  refine ⟨?_, ?_, ?_, ?_⟩
  · intro e h
    rw [Get_of_error env s id key e h]
  · intro h e hb
    rw [Get_of_reply env s id key h]
    split
    · rfl
    · rename_i item heq
      rw [heq] at hb
      cases hb
  · intro h hb e hd
    rw [Get_of_reply env s id key h]
    split
    · rfl
    · rename_i item heq
      rw [heq] at hd
      rw [hd]
  · intro v hv
    cases hx : (env.exec s.backend (hget id key)).1.2 with
    | some e =>
      rw [Get_of_error env s id key e hx] at hv
      cases hv
    | none =>
      rw [Get_of_reply env s id key hx] at hv
      refine ⟨rfl, ?_⟩
      split at hv
      · cases hv
      · rename_i item heq
        rw [heq]
        refine ⟨rfl, ?_⟩
        split at hv
        · cases hv
        · rename_i value hd
          rw [hd]
          exact congrArg Except.ok hv

/-- Witness of C4 on the reference environment: a missing field is a null
reply, which does not convert to bytes, and `Get` returns nil. -/
theorem C4_get_fail_soft_witness :
    (Get refEnv (refStore [(Reply.null, none), (Reply.int 0, none)])
        "s1" "k").1 = none :=
  (C4_get_fail_soft refEnv
    (refStore [(Reply.null, none), (Reply.int 0, none)]) "s1" "k").2.1
    (by rfl) "nil returned" (by rfl)

/-! ### Lemmas on `Set`, `Exist` and `SetIdMaxAge` -/

theorem Set_of_bytes {σ ρ : Type} (env : Env σ ρ) (s : Store σ ρ)
    (id key : String) (val : Iface) (b : Bytes) (reg1 : ρ)
    (h : serialize env s.registry val = (.ok b, reg1)) :
    Set env s id key val =
      match (env.exec s.backend (hset id key b)).1.2 with
      | some e =>
        (.err e,
          { s with
            registry := reg1
            backend := (env.exec s.backend (hset id key b)).2
            issued := s.issued ++ [hset id key b] })
      | none =>
        match (env.exec (env.exec s.backend (hset id key b)).2
            (hexpire id s.MaxAge)).1.2 with
        | some e =>
          (.err e,
            { s with
              registry := reg1
              backend := (env.exec (env.exec s.backend (hset id key b)).2
                (hexpire id s.MaxAge)).2
              issued := s.issued ++ [hset id key b] ++
                [hexpire id s.MaxAge] })
        | none =>
          (.ok (),
            { s with
              registry := reg1
              backend := (env.exec (env.exec s.backend (hset id key b)).2
                (hexpire id s.MaxAge)).2
              issued := s.issued ++ [hset id key b] ++
                [hexpire id s.MaxAge] }) := by
  rcases hx : env.exec s.backend (hset id key b) with ⟨⟨rep, oe⟩, σ1⟩
  rcases hy : env.exec σ1 (hexpire id s.MaxAge) with ⟨⟨rep2, oe2⟩, σ2⟩
  simp only [hset] at hx
  simp only [hexpire] at hy
  cases oe with
  | some e => simp only [Set, h, Do, hx, hset]
  | none =>
    cases oe2 with
    | some e2 => simp only [Set, h, Do, hx, hy, hset, hexpire]
    | none => simp only [Set, h, Do, hx, hy, hset, hexpire]

theorem Exist_eq {σ ρ : Type} (env : Env σ ρ) (s : Store σ ρ) (id : String) :
    Exist env s id =
      (decide (0 < (env.redisInt (env.exec s.backend (hlen id)).1.1
          (env.exec s.backend (hlen id)).1.2).1),
        { s with
          backend := (env.exec s.backend (hlen id)).2
          issued := s.issued ++ [hlen id] }) := rfl

theorem SetIdMaxAge_issued {σ ρ : Type} (env : Env σ ρ) (s : Store σ ρ)
    (id : String) (maxAge : Int) :
    (SetIdMaxAge env s id maxAge).issued =
      if (Exist env s id).1 = true then
        s.issued ++ [hlen id, hexpire id s.MaxAge]
      else s.issued ++ [hlen id] := by
  unfold SetIdMaxAge
  split
  · rename_i s1 heq
    have h1 : (Exist env s id).1 = true := by rw [heq]
    have h2 : s1 = (Exist env s id).2 := by rw [heq]
    rw [if_pos h1, h2, Do_issued, Exist_eq, List.append_assoc]
    rfl
  · rename_i s1 heq
    have h1 : ¬ (Exist env s id).1 = true := by rw [heq]; exact Bool.false_ne_true
    have h2 : s1 = (Exist env s id).2 := by rw [heq]
    rw [if_neg h1, h2, Exist_eq]

theorem register_unhandled {σ ρ : Type} (env : Env σ ρ) (reg : ρ) (v : Value)
    (hk : v.Kind = Kind.Func ∨ v.Kind = Kind.Chan ∨
      v.Kind = Kind.UnsafePointer) :
    registerGobConcreteType env reg (some v) =
      (.err ("unhandled type: " ++ v.Type.String), reg) := by
  unfold registerGobConcreteType
  rcases hk with hk | hk | hk <;> simp only [hk]

/-- C5 fails on the code, which passes the store-wide `MaxAge` and not the
duration it is given: on a store whose `MaxAge` is 30, with session `s1`
present (`HLEN` reports one field), `SetIdMaxAge s1 60` issues `HLEN s1`
and then `HEXPIRE s1 30`; no `HEXPIRE s1 60` is issued. -/
theorem C5_touch_ignores_its_duration :
    (SetIdMaxAge refEnv (refStore [(Reply.int 1, none), (Reply.int 1, none)])
        "s1" 60).issued = [hlen "s1", hexpire "s1" 30] ∧
    hexpire "s1" 60 ∉
      (SetIdMaxAge refEnv
        (refStore [(Reply.int 1, none), (Reply.int 1, none)])
        "s1" 60).issued := by
  constructor
  · rfl
  · decide

/-- C6. `Set` short-circuits on an encode failure: for every session id, key
and value for which `serialize` returns an error, `Set` returns that same
error and issues no backend command. -/
theorem C6_set_short_circuits {σ ρ : Type} (env : Env σ ρ) (s : Store σ ρ)
    (id key : String) (val : Iface) (e : Err) (reg1 : ρ)
    (h : serialize env s.registry val = (.err e, reg1)) :
    (Set env s id key val).1 = .err e ∧
      (Set env s id key val).2.issued = s.issued ∧
      (Set env s id key val).2.backend = s.backend := by
  simp only [Set, h, and_self]

/-- Witness of C6 on the reference environment: a bare struct is refused by
`serialize`, and `Set` returns that error without a command. -/
theorem C6_set_short_circuits_witness :
    (Set refEnv (refStore []) "s1" "profile" (some profile)).1 =
        .err "serialize func only take pointer of a struct" ∧
      (Set refEnv (refStore []) "s1" "profile" (some profile)).2.issued =
        [] ∧
      (Set refEnv (refStore []) "s1" "profile" (some profile)).2.backend =
        [] :=
  C6_set_short_circuits refEnv (refStore []) "s1" "profile" (some profile)
    "serialize func only take pointer of a struct" ["main.Profile"] (by rfl)

/-- C7. `Set` writes before it refreshes and never refreshes after a failed
write: for every session id, key and value for which `serialize` succeeds
with bytes `b`, `Set` issues `HSET id key b` first; if `HSET` fails `Set`
returns that error and issues nothing more; if `HSET` succeeds `Set` then
issues exactly one `HEXPIRE id MaxAge` and returns the error result of that
command. -/
theorem C7_set_writes_then_refreshes {σ ρ : Type} (env : Env σ ρ)
    (s : Store σ ρ) (id key : String) (val : Iface) (b : Bytes) (reg1 : ρ)
    (h : serialize env s.registry val = (.ok b, reg1)) :
    (∀ e : Err, (env.exec s.backend (hset id key b)).1.2 = some e →
      (Set env s id key val).1 = .err e ∧
      (Set env s id key val).2.issued = s.issued ++ [hset id key b]) ∧
    ((env.exec s.backend (hset id key b)).1.2 = none →
      (Set env s id key val).2.issued =
        s.issued ++ [hset id key b, hexpire id s.MaxAge] ∧
      (Set env s id key val).1 =
        match (env.exec (env.exec s.backend (hset id key b)).2
            (hexpire id s.MaxAge)).1.2 with
        | some e => .err e
        | none => .ok ()) := by
  rw [Set_of_bytes env s id key val b reg1 h]
  constructor
  · intro e he
    rw [he]
    exact ⟨rfl, rfl⟩
  · intro he
    rw [he]
    cases hy : (env.exec (env.exec s.backend (hset id key b)).2
        (hexpire id s.MaxAge)).1.2 with
    | some e2 => exact ⟨List.append_assoc _ _ _, rfl⟩
    | none => exact ⟨List.append_assoc _ _ _, rfl⟩

/-- Witness of C7 on the reference environment: `Set s1 count 42` on a
backend that accepts both commands. -/
theorem C7_set_writes_then_refreshes_witness :
    (Set refEnv (refStore [(Reply.int 1, none), (Reply.int 1, none)])
        "s1" "count" (some fortyTwo)).2.issued =
      [hset "s1" "count" (encodeDatum ⟨.Int, "int", [42], []⟩),
        hexpire "s1" 30] ∧
    (Set refEnv (refStore [(Reply.int 1, none), (Reply.int 1, none)])
        "s1" "count" (some fortyTwo)).1 = .ok () :=
  (C7_set_writes_then_refreshes refEnv
    (refStore [(Reply.int 1, none), (Reply.int 1, none)]) "s1" "count"
    (some fortyTwo) (encodeDatum ⟨.Int, "int", [42], []⟩) [] (by rfl)).2 (by rfl)

/-- C8, as stated, fails on a pointer to a pointer: the kind of `**Profile`
is `Ptr`, so `registerGobConcreteType` registers the element and returns a
nil error, not an "unhandled type" error. -/
theorem C8_pointer_to_pointer_accepted :
    (Value.ptr (Value.ptr profile)).Kind = Kind.Ptr ∧
    registerGobConcreteType refEnv [] (some (Value.ptr (Value.ptr profile))) =
      (.ok (), ["*main.Profile"]) ∧
    ¬ ∃ e : Err,
      (registerGobConcreteType refEnv []
        (some (Value.ptr (Value.ptr profile)))).1 = .err e := by
  refine ⟨rfl, rfl, ?_⟩
  rintro ⟨e, he⟩
  cases he

/-- C8, amended. For every value: if its kind is function, channel or unsafe
pointer, `registerGobConcreteType` returns the error "unhandled type: T" and
leaves the registry alone; if it is a non-nil pointer (to a concrete type or
to another pointer), it hands the pointed value to `gob.Register`, never
returns an error, and returns nil once `gob.Register` returns; if its kind is
struct, map or slice, it hands the value itself to `gob.Register`, never
returns an error, and returns nil once `gob.Register` returns; if it is a
built-in scalar it returns nil and registers nothing. -/
theorem C8_register_kinds {σ ρ : Type} (env : Env σ ρ) (reg : ρ) (v : Value) :
    ((v.Kind = Kind.Func ∨ v.Kind = Kind.Chan ∨
        v.Kind = Kind.UnsafePointer) →
      registerGobConcreteType env reg (some v) =
        (.err ("unhandled type: " ++ v.Type.String), reg)) ∧
    (∀ t : Value, v = Value.ptr t →
      (∀ e : Err, (registerGobConcreteType env reg (some v)).1 ≠ .err e) ∧
      (∀ reg1 : ρ, env.gobRegister reg t = some reg1 →
        registerGobConcreteType env reg (some v) = (.ok (), reg1))) ∧
    ((v.Kind = Kind.Struct ∨ v.Kind = Kind.Map ∨ v.Kind = Kind.Slice) →
      (∀ e : Err, (registerGobConcreteType env reg (some v)).1 ≠ .err e) ∧
      (∀ reg1 : ρ, env.gobRegister reg v = some reg1 →
        registerGobConcreteType env reg (some v) = (.ok (), reg1))) ∧
    (∀ d : Datum, v = Value.data d → d.kind ∈ builtinKinds →
      registerGobConcreteType env reg (some v) = (.ok (), reg)) := by
  refine ⟨register_unhandled env reg v, ?_, ?_, ?_⟩
  · intro t ht
    subst ht
    rw [register_ptr]
    constructor
    · intro e he
      cases hr : env.gobRegister reg t with
      | none => rw [hr] at he; cases he
      | some r => rw [hr] at he; cases he
    · intro reg1 hr
      rw [hr]
  · intro hk
    rw [register_aggregate env reg v hk]
    constructor
    · intro e he
      cases hr : env.gobRegister reg v with
      | none => rw [hr] at he; cases he
      | some r => rw [hr] at he; cases he
    · intro reg1 hr
      rw [hr]
  · intro d hd hk
    subst hd
    exact register_builtin env reg d hk

/-- Witness of C8 (amended) on the reference environment: a channel is
refused, a pointer to a `Profile` registers `Profile`, a map registers
itself, the integer 42 registers nothing. -/
theorem C8_register_kinds_witness :
    registerGobConcreteType refEnv []
        (some (Value.data ⟨.Chan, "chan int", [], []⟩)) =
      (.err "unhandled type: chan int", []) ∧
    registerGobConcreteType refEnv [] (some (Value.ptr profile)) =
      (.ok (), ["main.Profile"]) ∧
    registerGobConcreteType refEnv [] (some counts) =
      (.ok (), ["map[string]int"]) ∧
    registerGobConcreteType refEnv [] (some fortyTwo) = (.ok (), []) :=
  ⟨(C8_register_kinds refEnv [] (Value.data ⟨.Chan, "chan int", [], []⟩)).1
      (Or.inr (Or.inl rfl)),
   ((C8_register_kinds refEnv [] (Value.ptr profile)).2.1 profile rfl).2
      ["main.Profile"] rfl,
   ((C8_register_kinds refEnv [] counts).2.2.1 (Or.inr (Or.inl rfl))).2
      ["map[string]int"] rfl,
   (C8_register_kinds refEnv [] fortyTwo).2.2.2 ⟨.Int, "int", [42], []⟩ rfl
      (by decide)⟩

/-- C9. `serialize` rejects a bare struct: for every value whose kind is
struct, whatever its type name and its content, `serialize` never returns
bytes, and once `gob.Register` has returned it returns the error "serialize
func only take pointer of a struct". -/
theorem C9_bare_struct_rejected {σ ρ : Type} (env : Env σ ρ) (reg : ρ)
    (v : Value) (hk : v.Kind = Kind.Struct) :
    (∀ (b : Bytes) (reg1 : ρ), serialize env reg (some v) ≠ (.ok b, reg1)) ∧
    (∀ reg1 : ρ, env.gobRegister reg v = some reg1 →
      serialize env reg (some v) =
        (.err "serialize func only take pointer of a struct", reg1)) := by
  constructor
  · intro b reg1 h
    exact (serialize_ok_inv env reg reg1 v b h).2.1 hk
  · intro reg1 hr
    unfold serialize
    rw [register_aggregate env reg v (Or.inl hk), hr]
    dsimp only
    rw [if_pos hk]

/-- Witness of C9 on the reference environment, at `Profile{Name: "a"}`. -/
theorem C9_bare_struct_rejected_witness :
    serialize refEnv [] (some profile) =
      (.err "serialize func only take pointer of a struct",
        ["main.Profile"]) :=
  (C9_bare_struct_rejected refEnv [] profile rfl).2 ["main.Profile"] rfl

/-- C10. `Exist` reflects the field count: with a `goredis.Int` that fails
when `Do` failed and yields zero when it fails, `Exist id` is true if and
only if `HLEN id` returns no error and its reply converts to an integer
greater than zero. So it is false when the count is zero, when the backend
call fails and when the conversion fails. -/
theorem C10_exist_reflects_count {σ ρ : Type} (env : Env σ ρ)
    (hint : IntContract env) (s : Store σ ρ) (id : String) :
    (Exist env s id).1 = true ↔
      ((env.exec s.backend (hlen id)).1.2 = none ∧
        ∃ n : Int,
          env.redisInt (env.exec s.backend (hlen id)).1.1 none = (n, none) ∧
            0 < n) := by
  rw [Exist_eq]
  rcases hx : env.exec s.backend (hlen id) with ⟨⟨rep, oe⟩, σ1⟩
  simp only [decide_eq_true_eq]
  constructor
  · intro hpos
    have hconv : (env.redisInt rep oe).2 = none := by
      by_contra hne
      rw [hint.2 rep oe hne] at hpos
      exact absurd hpos (lt_irrefl 0)
    have hoe : oe = none := by
      cases oe with
      | none => rfl
      | some e => exact absurd hconv (hint.1 rep e)
    subst hoe
    exact ⟨rfl, (env.redisInt rep none).1, Prod.ext rfl hconv, hpos⟩
  · rintro ⟨hoe, n, hn, hpos⟩
    have hoe1 : oe = none := hoe
    subst hoe1
    rw [hn]
    exact hpos

/-- Witness of C10 on the reference environment: `HLEN` reports two
fields, and `Exist` is true. -/
theorem C10_exist_reflects_count_witness :
    (Exist refEnv (refStore [(Reply.int 2, none)]) "s1").1 = true :=
  (C10_exist_reflects_count refEnv refEnv_intContract
    (refStore [(Reply.int 2, none)]) "s1").2
    ⟨rfl, 2, rfl, by decide⟩

end Ledistore
